import Mathlib

set_option maxRecDepth 40000

/-!
Verification development for the alert-processing pipeline of
`src/automation/alert_processor.py` (DevOps monitoring platform).

The Python module is shallowly embedded: the `AlertProcessor` instance state
(`active_alerts` dict, `alert_history` list) becomes an explicit
`ProcessorState` record threaded through `processAlert`; Python dicts become
association lists with dict-faithful insert/lookup; `datetime.now()` becomes an
explicit `now : Nat` (seconds since epoch) parameter; `hashlib.md5(...).hexdigest()`
is implemented bit-faithfully (RFC 1321) over Nat arithmetic mod 2^32.
The three channel send operations (`send_email_notification`,
`send_slack_notification`, `send_webhook_notification`) perform network/SMTP
I/O guarded by try/except and are modelled as injected boolean-returning
collaborators, exactly as the spec frames them.
-/

/-- Python values appearing in `config` / `metadata` dicts of the module. -/
inductive PyVal where
  | str : String → PyVal
  | num : Int → PyVal
  | bool : Bool → PyVal
  | strs : List String → PyVal
deriving DecidableEq, Repr

/-- Python `d[k] = v` on a string-keyed dict modelled as an association list:
replace in place if the key is present, else append (insertion order kept). -/
def dictSet {β : Type} (l : List (String × β)) (k : String) (v : β) :
    List (String × β) :=
  if l.any (fun e => e.1 == k) then
    l.map (fun e => if e.1 == k then (k, v) else e)
  else l ++ [(k, v)]

/-- Python `d.get(k)` on a string-keyed dict modelled as an association list. -/
def dictGet {β : Type} (l : List (String × β)) (k : String) : Option β :=
  (l.find? (fun e => e.1 == k)).map (·.2)

/-! ### MD5 (RFC 1321), used by `generate_alert_id` via `hashlib.md5` -/

/-- Truncation to a 32-bit word. -/
def trunc32 (x : Nat) : Nat := x % 4294967296

/-- 32-bit addition. -/
def add32 (x y : Nat) : Nat := trunc32 (x + y)

/-- 32-bit left rotation (arguments are words `< 2^32`). -/
def rotl32 (x n : Nat) : Nat := trunc32 (x <<< n) ||| (x >>> (32 - n))

/-- 32-bit complement. -/
def not32 (x : Nat) : Nat := x ^^^ 4294967295

/-- MD5 auxiliary function F. -/
def mdF (b c d : Nat) : Nat := (b &&& c) ||| (not32 b &&& d)

/-- MD5 auxiliary function G. -/
def mdG (b c d : Nat) : Nat := (b &&& d) ||| (c &&& not32 d)

/-- MD5 auxiliary function H. -/
def mdH (b c d : Nat) : Nat := b ^^^ c ^^^ d

/-- MD5 auxiliary function I. -/
def mdI (b c d : Nat) : Nat := c ^^^ (b ||| not32 d)

/-- MD5 sine-derived constant table (RFC 1321 T[1..64]). -/
def mdK : List Nat :=
  [0xd76aa478, 0xe8c7b756, 0x242070db, 0xc1bdceee,
   0xf57c0faf, 0x4787c62a, 0xa8304613, 0xfd469501,
   0x698098d8, 0x8b44f7af, 0xffff5bb1, 0x895cd7be,
   0x6b901122, 0xfd987193, 0xa679438e, 0x49b40821,
   0xf61e2562, 0xc040b340, 0x265e5a51, 0xe9b6c7aa,
   0xd62f105d, 0x02441453, 0xd8a1e681, 0xe7d3fbc8,
   0x21e1cde6, 0xc33707d6, 0xf4d50d87, 0x455a14ed,
   0xa9e3e905, 0xfcefa3f8, 0x676f02d9, 0x8d2a4c8a,
   0xfffa3942, 0x8771f681, 0x6d9d6122, 0xfde5380c,
   0xa4beea44, 0x4bdecfa9, 0xf6bb4b60, 0xbebfbc70,
   0x289b7ec6, 0xeaa127fa, 0xd4ef3085, 0x04881d05,
   0xd9d4d039, 0xe6db99e5, 0x1fa27cf8, 0xc4ac5665,
   0xf4292244, 0x432aff97, 0xab9423a7, 0xfc93a039,
   0x655b59c3, 0x8f0ccc92, 0xffeff47d, 0x85845dd1,
   0x6fa87e4f, 0xfe2ce6e0, 0xa3014314, 0x4e0811a1,
   0xf7537e82, 0xbd3af235, 0x2ad7d2bb, 0xeb86d391]

/-- MD5 per-operation left-rotation amounts. -/
def mdS : List Nat :=
  [7, 12, 17, 22, 7, 12, 17, 22, 7, 12, 17, 22, 7, 12, 17, 22,
   5, 9, 14, 20, 5, 9, 14, 20, 5, 9, 14, 20, 5, 9, 14, 20,
   4, 11, 16, 23, 4, 11, 16, 23, 4, 11, 16, 23, 4, 11, 16, 23,
   6, 10, 15, 21, 6, 10, 15, 21, 6, 10, 15, 21, 6, 10, 15, 21]

/-- One of the 64 MD5 operations; `M` gives the block's 16 message words. -/
def md5op (M : Nat → Nat) (st : Nat × Nat × Nat × Nat) (i : Nat) :
    Nat × Nat × Nat × Nat :=
  let (a, b, c, d) := st
  let f :=
    if i < 16 then mdF b c d
    else if i < 32 then mdG b c d
    else if i < 48 then mdH b c d
    else mdI b c d
  let g :=
    if i < 16 then i
    else if i < 32 then (5 * i + 1) % 16
    else if i < 48 then (3 * i + 5) % 16
    else (7 * i) % 16
  let tmp := add32 (add32 (add32 a f) (mdK.getD i 0)) (M g)
  (d, add32 b (rotl32 tmp (mdS.getD i 0)), b, c)

/-- Little-endian word `j` (0..15) of a 64-byte block. -/
def leWord (block : List Nat) (j : Nat) : Nat :=
  block.getD (4 * j) 0 + 256 * block.getD (4 * j + 1) 0 +
    65536 * block.getD (4 * j + 2) 0 + 16777216 * block.getD (4 * j + 3) 0

/-- Compress one 64-byte block into the running MD5 state. -/
def md5block (st : Nat × Nat × Nat × Nat) (block : List Nat) :
    Nat × Nat × Nat × Nat :=
  let (a0, b0, c0, d0) := st
  let r := (List.range 64).foldl (md5op (leWord block)) (a0, b0, c0, d0)
  (add32 a0 r.1, add32 b0 r.2.1, add32 c0 r.2.2.1, add32 d0 r.2.2.2)

/-- 8 little-endian bytes of a 64-bit length value. -/
def le64 (n : Nat) : List Nat :=
  (List.range 8).map (fun i => (n >>> (8 * i)) &&& 255)

/-- MD5 padding: a 0x80 byte, zeros to 56 mod 64, then the bit length. -/
def md5pad (msg : List Nat) : List Nat :=
  let k := (119 - msg.length % 64) % 64
  msg ++ [0x80] ++ List.replicate k 0 ++ le64 (msg.length * 8 % 18446744073709551616)

/-- Split a byte list into 64-byte blocks (fuel-based structural recursion;
each step consumes at least one byte, so `l.length` fuel always suffices). -/
def toBlocksAux : Nat → List Nat → List (List Nat)
  | 0, _ => []
  | _ + 1, [] => []
  | fuel + 1, l => l.take 64 :: toBlocksAux fuel (l.drop 64)

/-- Split a byte list into 64-byte blocks. -/
def toBlocks (l : List Nat) : List (List Nat) :=
  toBlocksAux l.length l

/-- UTF-8 encoding of one code point (Python `str.encode()` byte semantics). -/
def utf8Char (n : Nat) : List Nat :=
  if n < 0x80 then [n]
  else if n < 0x800 then
    [0xC0 ||| (n >>> 6), 0x80 ||| (n &&& 0x3F)]
  else if n < 0x10000 then
    [0xE0 ||| (n >>> 12), 0x80 ||| ((n >>> 6) &&& 0x3F), 0x80 ||| (n &&& 0x3F)]
  else
    [0xF0 ||| (n >>> 18), 0x80 ||| ((n >>> 12) &&& 0x3F),
     0x80 ||| ((n >>> 6) &&& 0x3F), 0x80 ||| (n &&& 0x3F)]

/-- UTF-8 bytes of a string. -/
def utf8Bytes (s : String) : List Nat :=
  (s.toList.map (fun c => utf8Char c.toNat)).flatten

/-- Lowercase hex rendering of one byte. -/
def hexByte (b : Nat) : String :=
  let dig := fun n => String.singleton (Char.ofNat (if n < 10 then 48 + n else 87 + n))
  dig (b / 16 % 16) ++ dig (b % 16)

/-- 4 little-endian bytes of a 32-bit word. -/
def le32 (n : Nat) : List Nat :=
  [n &&& 255, (n >>> 8) &&& 255, (n >>> 16) &&& 255, (n >>> 24) &&& 255]

/-- Hex digest of MD5, as produced by Python `hashlib.md5(s.encode()).hexdigest()`. -/
def md5hex (s : String) : String :=
  let blocks := toBlocks (md5pad (utf8Bytes s))
  let r := blocks.foldl md5block (0x67452301, 0xefcdab89, 0x98badcfe, 0x10325476)
  String.join (((le32 r.1 ++ le32 r.2.1 ++ le32 r.2.2.1 ++ le32 r.2.2.2).map hexByte))

/-- Known-answer test for the MD5 embedding (RFC 1321 test suite). -/
example : md5hex "" = "d41d8cd98f00b204e9800998ecf8427e" := by decide

/-- Known-answer test for the MD5 embedding (RFC 1321 test suite). -/
example : md5hex "abc" = "900150983cd24fb0d6963f7d28e17f72" := by decide

/-! ### Data model (`Alert`, `NotificationChannel`, routing rules, payloads) -/

/-- The `Alert` dataclass of the module (`timestamp` is seconds since epoch). -/
structure Alert where
  id : String
  title : String
  description : String
  severity : String
  source : String
  timestamp : Nat
  tags : List String
  metadata : List (String × PyVal)
  status : String := "new"
  assigned_to : Option String := none
deriving DecidableEq

/-- The `NotificationChannel` dataclass of the module. -/
structure NotificationChannel where
  name : String
  type : String
  config : List (String × PyVal)
  enabled : Bool := true
deriving DecidableEq

/-- One routing-rule dict from `_setup_routing_rules`; `escalation_time`
is the `timedelta` in seconds. -/
structure RoutingRule where
  name : String
  conditions : List (String × String)
  channels : List String
  escalation_time : Nat
deriving DecidableEq

/-- A raw ingestion payload dict: `alert_data` as consumed by `process_alert`
via `alert_data.get(...)`; `none` models an absent key. -/
structure AlertData where
  title : Option String := none
  description : Option String := none
  severity : Option String := none
  source : Option String := none
  tags : Option (List String) := none
  metadata : Option (List (String × PyVal)) := none
deriving DecidableEq

/-- The mutable state of an `AlertProcessor` instance: the `active_alerts`
dict (keyed by alert id) and the `alert_history` list. -/
structure ProcessorState where
  active_alerts : List (String × Alert) := []
  alert_history : List Alert := []
deriving DecidableEq

/-- The channel registry built by `_setup_notification_channels`. -/
def defaultNotificationChannels : List NotificationChannel :=
  [{ name := "email_ops", type := "email",
     config := [("smtp_server", .str "smtp.gmail.com"), ("smtp_port", .num 587),
                ("recipients", .strs ["ops-team@company.com", "devops@company.com"]),
                ("sender", .str "alerts@company.com")] },
   { name := "slack_critical", type := "slack",
     config := [("webhook_url", .str "https://hooks.slack.com/services/YOUR/SLACK/WEBHOOK"),
                ("channel", .str "#critical-alerts"), ("username", .str "DevOps Bot")] },
   { name := "pagerduty", type := "webhook",
     config := [("url", .str "https://events.pagerduty.com/v2/enqueue"),
                ("routing_key", .str "YOUR_PAGERDUTY_KEY")] }]

/-- The rule list built by `_setup_routing_rules`. -/
def defaultRoutingRules : List RoutingRule :=
  [{ name := "critical_alerts", conditions := [("severity", "critical")],
     channels := ["email_ops", "slack_critical", "pagerduty"], escalation_time := 900 },
   { name := "warning_alerts", conditions := [("severity", "warning")],
     channels := ["email_ops", "slack_critical"], escalation_time := 3600 },
   { name := "info_alerts", conditions := [("severity", "info")],
     channels := ["email_ops"], escalation_time := 14400 },
   { name := "kubernetes_alerts", conditions := [("source", "kubernetes")],
     channels := ["email_ops", "slack_critical"], escalation_time := 1800 }]

/-! ### Pipeline steps -/

/-- Python `str.lower()` (ASCII case folding, which covers every string the
module compares; `Char.toLower` only folds A-Z, and the embedding is stated
over that fragment). Defined over the character list so that it reduces in
the kernel. -/
def strLower (s : String) : String := String.mk (s.data.map Char.toLower)

/-- Python substring test `needle in hay` on character lists. -/
def subSearch (needle : List Char) : List Char → Bool
  | [] => needle.isEmpty
  | c :: rest => needle.isPrefixOf (c :: rest) || subSearch needle rest

/-- Python `sub in s` for strings. -/
def strContains (s sub : String) : Bool := subSearch sub.toList s.toList

/-- The `self.deduplication_window = timedelta(minutes=5)` constant, in seconds. -/
def deduplicationWindow : Int := 300

/-- `generate_alert_id`: md5 of title+source+description (each defaulted to
`""` by `alert_data.get(...)`), truncated to 12 hex characters. -/
def generate_alert_id (alert_data : AlertData) : String :=
  let content := alert_data.title.getD "" ++ alert_data.source.getD "" ++
    alert_data.description.getD ""
  (md5hex content).take 12

/-- `deduplicate_alert`: scan the active dict for an alert with the same title
and source whose timestamp is less than the window before the current time. -/
def deduplicate_alert (now : Nat) (new_alert : Alert)
    (active : List (String × Alert)) : Bool :=
  active.any (fun e =>
    e.2.title == new_alert.title && e.2.source == new_alert.source &&
      decide ((now : Int) - (e.2.timestamp : Int) < deduplicationWindow))

/-- The `Alert(...)` construction at the top of `process_alert`, with the
`.get` defaults and severity lower-casing of the source. -/
def mkAlert (now : Nat) (alert_data : AlertData) : Alert :=
  { id := generate_alert_id alert_data
    title := alert_data.title.getD "Unknown Alert"
    description := alert_data.description.getD ""
    severity := strLower (alert_data.severity.getD "info")
    source := alert_data.source.getD "unknown"
    timestamp := now
    tags := alert_data.tags.getD []
    metadata := alert_data.metadata.getD [] }

/-- First block of `_enrich_alert`: timestamp-based tags. The Python guard
`0 <= hour < 6` collapses to `hour < 6` since the modelled hour is a natural
number. -/
def enrichHourTags (a : Alert) : Alert :=
  let hour := a.timestamp / 3600 % 24
  if hour < 6 then { a with tags := a.tags ++ ["night_hours"] }
  else if 9 ≤ hour ∧ hour < 17 then { a with tags := a.tags ++ ["business_hours"] }
  else a

/-- Second block of `_enrich_alert`: source-based enrichment tags. -/
def enrichSourceTags (a : Alert) : Alert :=
  if a.source = "kubernetes" then
    let b := { a with tags := a.tags ++ ["container_platform"] }
    if strContains (strLower b.description) "pod" then
      { b with tags := b.tags ++ ["pod_issue"] }
    else if strContains (strLower b.description) "node" then
      { b with tags := b.tags ++ ["node_issue"] }
    else b
  else if a.source = "aws" then
    let b := { a with tags := a.tags ++ ["cloud_platform"] }
    if strContains (strLower b.description) "ec2" then
      { b with tags := b.tags ++ ["compute_issue"] }
    else if strContains (strLower b.description) "rds" then
      { b with tags := b.tags ++ ["database_issue"] }
    else b
  else a

/-- Third block of `_enrich_alert`: severity-based metadata. -/
def enrichSeverityMeta (a : Alert) : Alert :=
  if a.severity = "critical" then
    { a with metadata := dictSet (dictSet a.metadata
        "requires_immediate_attention" (.bool true)) "max_response_time" (.str "15 minutes") }
  else if a.severity = "warning" then
    { a with metadata := dictSet (dictSet a.metadata
        "requires_attention" (.bool true)) "max_response_time" (.str "1 hour") }
  else a

/-- `_enrich_alert`: the three blocks run in sequence on the same alert. -/
def enrich_alert (a : Alert) : Alert :=
  enrichSeverityMeta (enrichSourceTags (enrichHourTags a))

/-- The keyword scan in `_apply_severity_rules`:
`any(keyword in alert.description.lower() for keyword in [...])`. -/
def hasEscalationKeyword (description : String) : Bool :=
  ["down", "failed", "error", "timeout"].any
    (fun keyword => strContains (strLower description) keyword)

/-- First block of `_apply_severity_rules`: keyword-driven warning→critical
escalation. -/
def escalateKeyword (a : Alert) : Alert :=
  if hasEscalationKeyword a.description then
    if a.severity = "warning" then
      { a with severity := "critical", tags := a.tags ++ ["auto_escalated"] }
    else a
  else a

/-- Second block of `_apply_severity_rules`: source-based ownership
assignment. -/
def assignBySource (a : Alert) : Alert :=
  if a.source = "kubernetes" then { a with assigned_to := some "k8s_team" }
  else if a.source = "aws" then { a with assigned_to := some "cloud_team" }
  else if a.source = "database" then { a with assigned_to := some "dba_team" }
  else a

/-- `_apply_severity_rules`: escalation then ownership assignment. -/
def apply_severity_rules (a : Alert) : Alert :=
  assignBySource (escalateKeyword a)

/-- `process_alert`: construct, deduplicate, enrich, escalate, store. The
duplicate branch returns `None` and leaves the state untouched; the store
writes the active dict entry and appends to history. -/
def process_alert (now : Nat) (alert_data : AlertData) (st : ProcessorState) :
    Option Alert × ProcessorState :=
  let alert := mkAlert now alert_data
  if deduplicate_alert now alert st.active_alerts then (none, st)
  else
    let alert := apply_severity_rules (enrich_alert alert)
    (some alert,
      { active_alerts := dictSet st.active_alerts alert.id alert,
        alert_history := st.alert_history ++ [alert] })

/-- A sequence of `process_alert` calls (payloads with their arrival times). -/
def runAlerts (l : List (Nat × AlertData)) (st : ProcessorState) : ProcessorState :=
  l.foldl (fun s p => (process_alert p.1 p.2 s).2) st

/-! ### Routing -/

/-- Python `getattr(alert, key, None)` compared against a string condition
value: only the string-valued attributes can ever equal a string, so the
non-string attributes (`timestamp`, `tags`, `metadata`) and unknown keys
collapse to `none`, exactly like a missing attribute. -/
def attrGet (a : Alert) (key : String) : Option String :=
  if key = "id" then some a.id
  else if key = "title" then some a.title
  else if key = "description" then some a.description
  else if key = "severity" then some a.severity
  else if key = "source" then some a.source
  else if key = "status" then some a.status
  else if key = "assigned_to" then a.assigned_to
  else none

/-- The per-rule condition loop of `route_alert`: every condition key/value
pair must equal the alert's attribute. -/
def ruleMatches (a : Alert) (r : RoutingRule) : Bool :=
  r.conditions.all (fun c => attrGet a c.1 == some c.2)

/-- Python `list(dict.fromkeys(l))`: deduplicate keeping the first occurrence
of each element, preserving order (`seen` accumulates keys already kept). -/
def dedupKeys : List String → List String → List String
  | [], _ => []
  | x :: xs, seen =>
      if seen.contains x then dedupKeys xs seen else x :: dedupKeys xs (x :: seen)

/-- `route_alert`: accumulate the channels of every matching rule in rule
order, then deduplicate preserving first-seen order. -/
def route_alert (rules : List RoutingRule) (a : Alert) : List String :=
  let matching_channels :=
    rules.foldl (fun acc r => if ruleMatches a r then acc ++ r.channels else acc)
      ([] : List String)
  dedupKeys matching_channels []

/-! ### Notification dispatch

The three `send_*_notification` methods wrap network and SMTP I/O in
try/except and return a boolean; they are modelled as injected collaborators
`sendEmail`, `sendSlack`, `sendWebhook : Alert → config → Bool`. -/

/-- One entry of the `notification_results["results"]` list: `reason` is set
on skipped entries, `ctype` (the `"type"` key) on dispatched entries. -/
structure NotifyOutcome where
  channel : String
  status : String
  reason : Option String := none
  ctype : Option String := none
deriving DecidableEq

/-- The aggregate dict returned by `notify_alert`. -/
structure NotifyResult where
  alert_id : String
  channels_attempted : Nat
  successful_notifications : Nat
  failed_notifications : Nat
  results : List NotifyOutcome
deriving DecidableEq

/-- A channel-type send capability: alert and channel `config` to a boolean. -/
abbrev SendFn := Alert → List (String × PyVal) → Bool

/-- The `if/elif` dispatch on `channel.type` inside `notify_alert`; an
unrecognized type leaves `success = False`. -/
def dispatchSend (sendEmail sendSlack sendWebhook : SendFn)
    (ch : NotificationChannel) (a : Alert) : Bool :=
  if ch.type = "email" then sendEmail a ch.config
  else if ch.type = "slack" then sendSlack a ch.config
  else if ch.type = "webhook" then sendWebhook a ch.config
  else false

/-- `next((ch for ch in self.notification_channels if ch.name == name), None)`. -/
def channelFind (channels : List NotificationChannel) (name : String) :
    Option NotificationChannel :=
  channels.find? (fun ch => ch.name == name)

/-- The loop body of `notify_alert` for one routed channel name, acting on the
accumulated result dict. -/
def notifyStep (channels : List NotificationChannel)
    (sendEmail sendSlack sendWebhook : SendFn) (a : Alert)
    (res : NotifyResult) (name : String) : NotifyResult :=
  match channelFind channels name with
  | none =>
      { res with results := res.results ++
          [{ channel := name, status := "skipped",
             reason := some "Channel not found or disabled" }] }
  | some ch =>
      if !ch.enabled then
        { res with results := res.results ++
            [{ channel := name, status := "skipped",
               reason := some "Channel not found or disabled" }] }
      else if dispatchSend sendEmail sendSlack sendWebhook ch a then
        { res with
            successful_notifications := res.successful_notifications + 1,
            results := res.results ++
              [{ channel := name, status := "success", ctype := some ch.type }] }
      else
        { res with
            failed_notifications := res.failed_notifications + 1,
            results := res.results ++
              [{ channel := name, status := "failed", ctype := some ch.type }] }

/-- The outcome `notify_alert` records for a single routed channel name. -/
def notifyOutcome (channels : List NotificationChannel)
    (sendEmail sendSlack sendWebhook : SendFn) (a : Alert) (name : String) :
    NotifyOutcome :=
  match channelFind channels name with
  | none => { channel := name, status := "skipped",
              reason := some "Channel not found or disabled" }
  | some ch =>
      if !ch.enabled then
        { channel := name, status := "skipped",
          reason := some "Channel not found or disabled" }
      else if dispatchSend sendEmail sendSlack sendWebhook ch a then
        { channel := name, status := "success", ctype := some ch.type }
      else
        { channel := name, status := "failed", ctype := some ch.type }

/-- `notify_alert`: route the alert, then fold the per-channel dispatch loop
over the routed names, starting from the zeroed aggregate dict. -/
def notify_alert (channels : List NotificationChannel)
    (sendEmail sendSlack sendWebhook : SendFn) (rules : List RoutingRule)
    (a : Alert) : NotifyResult :=
  let target_channels := route_alert rules a
  target_channels.foldl (notifyStep channels sendEmail sendSlack sendWebhook a)
    { alert_id := a.id, channels_attempted := target_channels.length,
      successful_notifications := 0, failed_notifications := 0, results := [] }

/-! ### The try/except boundary of `process_alert`

`process_alert` runs its body inside `try: ... except Exception: return None`.
To reason about a step raising, each step is abstracted as an
`Except`-returning computation (`.error` models a raised exception); the
concrete pipeline instantiates every step with a total function wrapped in
`.ok`, which is how the Python steps behave on well-typed payloads. -/

/-- `process_alert` with each internal step (alert construction,
deduplication, enrichment, escalation) allowed to raise: a raise anywhere
falls to the `except` handler, which returns `None` and commits nothing. -/
def process_alert_try (mk : Except String Alert)
    (ded : Alert → Except String Bool)
    (enr : Alert → Except String Alert)
    (esc : Alert → Except String Alert)
    (st : ProcessorState) : Option Alert × ProcessorState :=
  match mk with
  | .error _ => (none, st)
  | .ok alert =>
    match ded alert with
    | .error _ => (none, st)
    | .ok true => (none, st)
    | .ok false =>
      match enr alert with
      | .error _ => (none, st)
      | .ok alert =>
        match esc alert with
        | .error _ => (none, st)
        | .ok alert =>
          (some alert,
            { active_alerts := dictSet st.active_alerts alert.id alert,
              alert_history := st.alert_history ++ [alert] })


/-! ### Basic lemmas about the dict model -/

theorem mem_dictSet_self {β : Type} (l : List (String × β)) (k : String) (v : β) :
    (k, v) ∈ dictSet l k v := by
  unfold dictSet
  split
  · next h =>
    obtain ⟨e, he, hk⟩ := List.any_eq_true.mp h
    exact List.mem_map.mpr ⟨e, he, by simp [hk]⟩
  · simp

theorem mem_of_mem_dictSet {β : Type} {l : List (String × β)} {k : String}
    {v : β} {e : String × β} (h : e ∈ dictSet l k v) : e ∈ l ∨ e = (k, v) := by
  unfold dictSet at h
  split at h
  · obtain ⟨e', he', heq⟩ := List.mem_map.mp h
    by_cases hk : e'.1 = k
    · right; rw [if_pos (by simpa using hk)] at heq; exact heq.symm
    · left; rw [if_neg (by simpa using hk)] at heq; exact heq ▸ he'
  · rcases List.mem_append.mp h with h' | h'
    · exact Or.inl h'
    · right; simpa using h'

theorem find?_map_replace {β : Type} (l : List (String × β)) (k : String) (v : β)
    (h : l.any (fun e => e.1 == k) = true) :
    ((l.map (fun e => if e.1 == k then (k, v) else e)).find?
      (fun e => e.1 == k)) = some (k, v) := by
  induction l with
  | nil => simp at h
  | cons hd tl ih =>
    rw [List.map_cons]
    by_cases hh : hd.1 = k
    · rw [if_pos (by simpa using hh), List.find?_cons_of_pos _ (by simp)]
    · have h' : tl.any (fun e => e.1 == k) = true := by
        rcases List.any_eq_true.mp h with ⟨e, he, hke⟩
        rcases List.mem_cons.mp he with rfl | he'
        · exact absurd (by simpa using hke) hh
        · exact List.any_eq_true.mpr ⟨e, he', hke⟩
      rw [if_neg (by simpa using hh),
        List.find?_cons_of_neg _ (by simpa using hh)]
      exact ih h'

theorem find?_map_keep {β : Type} (l : List (String × β)) (k : String) (v : β)
    (k' : String) (hne : k' ≠ k) :
    ((l.map (fun e => if e.1 == k then (k, v) else e)).find?
      (fun e => e.1 == k')) = l.find? (fun e => e.1 == k') := by
  induction l with
  | nil => simp
  | cons hd tl ih =>
    rw [List.map_cons]
    by_cases hh : hd.1 = k
    · have hk' : ¬hd.1 = k' := fun hc => hne (hh ▸ hc).symm
      rw [if_pos (by simpa using hh),
        List.find?_cons_of_neg _ (by simpa using fun hc => hne hc.symm),
        List.find?_cons_of_neg _ (by simpa using hk')]
      exact ih
    · rw [if_neg (by simpa using hh)]
      by_cases hk' : hd.1 = k'
      · rw [List.find?_cons_of_pos _ (by simpa using hk'),
          List.find?_cons_of_pos _ (by simpa using hk')]
      · rw [List.find?_cons_of_neg _ (by simpa using hk'),
          List.find?_cons_of_neg _ (by simpa using hk')]
        exact ih

theorem dictGet_dictSet_same {β : Type} (l : List (String × β)) (k : String)
    (v : β) : dictGet (dictSet l k v) k = some v := by
  unfold dictSet dictGet
  split
  · next h => rw [find?_map_replace l k v h]; rfl
  · next h =>
    have hnone : l.find? (fun e => e.1 == k) = none := by
      rw [List.find?_eq_none]
      intro x hx hpx
      exact h (List.any_eq_true.mpr ⟨x, hx, hpx⟩)
    rw [List.find?_append, hnone, Option.none_or,
      List.find?_cons_of_pos _ (by simp)]
    rfl

theorem dictGet_dictSet_other {β : Type} (l : List (String × β)) (k : String)
    (v : β) (k' : String) (hne : k' ≠ k) :
    dictGet (dictSet l k v) k' = dictGet l k' := by
  unfold dictSet dictGet
  split
  · rw [find?_map_keep l k v k' hne]
  · rw [List.find?_append,
      List.find?_cons_of_neg _ (by simpa using fun hc => hne hc.symm)]
    simp

/-! ### Lemmas about `dedupKeys` (the `dict.fromkeys` dedup) -/

theorem dedupKeys_spec : ∀ (l seen : List String),
    (dedupKeys l seen).Nodup ∧ ∀ x ∈ dedupKeys l seen, x ∉ seen := by
  intro l
  induction l with
  | nil => intro seen; simp [dedupKeys]
  | cons x xs ih =>
    intro seen
    unfold dedupKeys
    split
    · exact ⟨(ih seen).1, (ih seen).2⟩
    · next hc =>
      have hx : x ∉ seen := fun hmem =>
        hc (by simpa [List.contains] using List.elem_iff.mpr hmem)
      obtain ⟨hn, hs⟩ := ih (x :: seen)
      refine ⟨List.nodup_cons.mpr ⟨fun hmem => ?_, hn⟩, ?_⟩
      · exact hs x hmem (List.mem_cons_self x seen)
      · intro y hy
        rcases List.mem_cons.mp hy with rfl | hy'
        · exact hx
        · exact fun hmem => hs y hy' (List.mem_cons_of_mem x hmem)

theorem dedupKeys_nodup (l : List String) : (dedupKeys l []).Nodup :=
  (dedupKeys_spec l []).1

theorem route_alert_nodup (rules : List RoutingRule) (a : Alert) :
    (route_alert rules a).Nodup :=
  dedupKeys_nodup _

/-! ### Field-preservation shapes of the pipeline steps -/

theorem enrichHourTags_eq (a : Alert) :
    ∃ ts, enrichHourTags a = { a with tags := ts } := by
  unfold enrichHourTags
  dsimp only
  split_ifs <;> exact ⟨_, rfl⟩

theorem enrichSourceTags_eq (a : Alert) :
    ∃ ts, enrichSourceTags a = { a with tags := ts } := by
  unfold enrichSourceTags
  dsimp only
  split_ifs <;> exact ⟨_, rfl⟩

theorem enrichSeverityMeta_eq (a : Alert) :
    ∃ md, enrichSeverityMeta a = { a with metadata := md } := by
  unfold enrichSeverityMeta
  split_ifs <;> exact ⟨_, rfl⟩

theorem enrich_alert_eq (a : Alert) :
    ∃ ts md, enrich_alert a = { a with tags := ts, metadata := md } := by
  obtain ⟨t1, h1⟩ := enrichHourTags_eq a
  obtain ⟨t2, h2⟩ := enrichSourceTags_eq (enrichHourTags a)
  obtain ⟨m3, h3⟩ := enrichSeverityMeta_eq (enrichSourceTags (enrichHourTags a))
  refine ⟨t2, m3, ?_⟩
  rw [enrich_alert, h3, h2, h1]

theorem escalateKeyword_eq (a : Alert) :
    ∃ sv ts, escalateKeyword a = { a with severity := sv, tags := ts } := by
  unfold escalateKeyword
  split_ifs <;> exact ⟨_, _, rfl⟩

theorem assignBySource_eq (a : Alert) :
    ∃ o, assignBySource a = { a with assigned_to := o } := by
  unfold assignBySource
  split_ifs <;> exact ⟨_, rfl⟩

theorem apply_severity_rules_eq (a : Alert) :
    ∃ sv ts o, apply_severity_rules a =
      { a with severity := sv, tags := ts, assigned_to := o } := by
  obtain ⟨sv, ts, h1⟩ := escalateKeyword_eq a
  obtain ⟨o, h2⟩ := assignBySource_eq (escalateKeyword a)
  refine ⟨sv, ts, o, ?_⟩
  rw [apply_severity_rules, h2, h1]

/-- The alert value stored by the non-duplicate branch of `process_alert`. -/
def storedAlert (now : Nat) (alert_data : AlertData) : Alert :=
  apply_severity_rules (enrich_alert (mkAlert now alert_data))

theorem process_alert_eq (now : Nat) (alert_data : AlertData)
    (st : ProcessorState) :
    process_alert now alert_data st =
      if deduplicate_alert now (mkAlert now alert_data) st.active_alerts then
        (none, st)
      else
        (some (storedAlert now alert_data),
          { active_alerts :=
              dictSet st.active_alerts (storedAlert now alert_data).id
                (storedAlert now alert_data),
            alert_history := st.alert_history ++ [storedAlert now alert_data] }) :=
  rfl

theorem storedAlert_eq (now : Nat) (d : AlertData) :
    ∃ sv ts md o, storedAlert now d =
      { mkAlert now d with severity := sv, tags := ts, metadata := md, assigned_to := o } := by
  obtain ⟨ts, md, h1⟩ := enrich_alert_eq (mkAlert now d)
  obtain ⟨sv, ts', o, h2⟩ := apply_severity_rules_eq (enrich_alert (mkAlert now d))
  exact ⟨sv, ts', md, o, by rw [storedAlert, h2, h1]⟩

theorem storedAlert_fields (now : Nat) (d : AlertData) :
    (storedAlert now d).id = generate_alert_id d ∧
    (storedAlert now d).title = d.title.getD "Unknown Alert" ∧
    (storedAlert now d).description = d.description.getD "" ∧
    (storedAlert now d).source = d.source.getD "unknown" ∧
    (storedAlert now d).timestamp = now := by
  obtain ⟨sv, ts, md, o, h⟩ := storedAlert_eq now d
  refine ⟨?_, ?_, ?_, ?_, ?_⟩ <;> rw [h] <;> dsimp only [mkAlert]

/-! ### Aggregation lemmas for `notify_alert` -/

/-- Effect of recording one outcome on the aggregate result dict. -/
def addOutcome (res : NotifyResult) (o : NotifyOutcome) : NotifyResult :=
  { res with
      successful_notifications :=
        res.successful_notifications + (if o.status = "success" then 1 else 0),
      failed_notifications :=
        res.failed_notifications + (if o.status = "failed" then 1 else 0),
      results := res.results ++ [o] }

theorem notifyStep_eq (channels : List NotificationChannel)
    (sE sS sW : SendFn) (a : Alert) (res : NotifyResult) (name : String) :
    notifyStep channels sE sS sW a res name =
      addOutcome res (notifyOutcome channels sE sS sW a name) := by
  unfold notifyStep notifyOutcome addOutcome
  cases h : channelFind channels name with
  | none => simp
  | some ch =>
    by_cases he : ch.enabled
    · by_cases hd : dispatchSend sE sS sW ch a
      · simp [he, hd]
      · simp [he, hd]
    · simp [he]

theorem notify_fold (channels : List NotificationChannel) (sE sS sW : SendFn)
    (a : Alert) : ∀ (names : List String) (res : NotifyResult),
    (names.foldl (notifyStep channels sE sS sW a) res).results =
        res.results ++ names.map (notifyOutcome channels sE sS sW a) ∧
    (names.foldl (notifyStep channels sE sS sW a) res).successful_notifications =
        res.successful_notifications +
          (names.map (notifyOutcome channels sE sS sW a)).countP
            (fun o => o.status == "success") ∧
    (names.foldl (notifyStep channels sE sS sW a) res).failed_notifications =
        res.failed_notifications +
          (names.map (notifyOutcome channels sE sS sW a)).countP
            (fun o => o.status == "failed") ∧
    (names.foldl (notifyStep channels sE sS sW a) res).channels_attempted =
        res.channels_attempted ∧
    (names.foldl (notifyStep channels sE sS sW a) res).alert_id = res.alert_id := by
  intro names
  induction names with
  | nil => intro res; simp
  | cons n ns ih =>
    intro res
    obtain ⟨h1, h2, h3, h4, h5⟩ :=
      ih (notifyStep channels sE sS sW a res n)
    rw [List.foldl_cons] at *
    refine ⟨?_, ?_, ?_, ?_, ?_⟩
    · rw [h1, notifyStep_eq]; simp [addOutcome]
    · rw [h2, notifyStep_eq]
      simp only [addOutcome, List.map_cons, List.countP_cons]
      simp
      omega
    · rw [h3, notifyStep_eq]
      simp only [addOutcome, List.map_cons, List.countP_cons]
      simp
      omega
    · rw [h4, notifyStep_eq]; simp [addOutcome]
    · rw [h5, notifyStep_eq]; simp [addOutcome]

theorem notifyOutcome_status (channels : List NotificationChannel)
    (sE sS sW : SendFn) (a : Alert) (name : String) :
    (notifyOutcome channels sE sS sW a name).status = "skipped" ∨
    (notifyOutcome channels sE sS sW a name).status = "success" ∨
    (notifyOutcome channels sE sS sW a name).status = "failed" := by
  unfold notifyOutcome
  cases h : channelFind channels name with
  | none => left; rfl
  | some ch =>
    by_cases he : ch.enabled
    · by_cases hd : dispatchSend sE sS sW ch a
      · right; left; simp [he, hd]
      · right; right; simp [he, hd]
    · left; simp [he]

theorem countP_status_total (l : List NotifyOutcome)
    (h : ∀ o ∈ l, o.status = "skipped" ∨ o.status = "success" ∨ o.status = "failed") :
    l.countP (fun o => o.status == "success") +
      l.countP (fun o => o.status == "failed") +
      l.countP (fun o => o.status == "skipped") = l.length := by
  induction l with
  | nil => simp
  | cons x xs ih =>
    have hx := h x (List.mem_cons_self x xs)
    have ih' := ih (fun o ho => h o (List.mem_cons_of_mem x ho))
    rcases hx with hx | hx | hx <;>
      simp only [List.countP_cons, List.length_cons, hx] <;> simp <;> omega

/-! ### Behaviour of the escalation and assignment blocks -/

theorem escalateKeyword_pos (a : Alert)
    (hk : hasEscalationKeyword a.description = true) (hw : a.severity = "warning") :
    escalateKeyword a =
      { a with severity := "critical", tags := a.tags ++ ["auto_escalated"] } := by
  unfold escalateKeyword
  rw [if_pos hk, if_pos hw]

theorem escalateKeyword_neg (a : Alert)
    (h : ¬(hasEscalationKeyword a.description = true ∧ a.severity = "warning")) :
    escalateKeyword a = a := by
  unfold escalateKeyword
  by_cases hk : hasEscalationKeyword a.description = true
  · rw [if_pos hk, if_neg (fun hw => h ⟨hk, hw⟩)]
  · rw [if_neg hk]

theorem assignBySource_k8s (a : Alert) (h : a.source = "kubernetes") :
    assignBySource a = { a with assigned_to := some "k8s_team" } := by
  unfold assignBySource
  rw [if_pos h]

theorem assignBySource_aws (a : Alert) (h : a.source = "aws") :
    assignBySource a = { a with assigned_to := some "cloud_team" } := by
  unfold assignBySource
  rw [if_neg (by simp [h]), if_pos h]

theorem assignBySource_db (a : Alert) (h : a.source = "database") :
    assignBySource a = { a with assigned_to := some "dba_team" } := by
  unfold assignBySource
  rw [if_neg (by simp [h]), if_neg (by simp [h]), if_pos h]

theorem assignBySource_other (a : Alert) (h1 : a.source ≠ "kubernetes")
    (h2 : a.source ≠ "aws") (h3 : a.source ≠ "database") :
    assignBySource a = a := by
  unfold assignBySource
  rw [if_neg h1, if_neg h2, if_neg h3]

theorem apply_severity_rules_severity (a : Alert) :
    (apply_severity_rules a).severity = a.severity ∨
      ((apply_severity_rules a).severity = "critical" ∧ a.severity = "warning") := by
  obtain ⟨o, h2⟩ := assignBySource_eq (escalateKeyword a)
  unfold apply_severity_rules
  rw [h2]
  by_cases hk : hasEscalationKeyword a.description = true
  · by_cases hw : a.severity = "warning"
    · right; rw [escalateKeyword_pos a hk hw]; exact ⟨rfl, hw⟩
    · left; rw [escalateKeyword_neg a (fun hc => hw hc.2)]
  · left; rw [escalateKeyword_neg a (fun hc => hk hc.1)]

/-! ### Behaviour of the enrichment metadata block -/

theorem enrichSeverityMeta_warning (a : Alert) (h : a.severity = "warning") :
    enrichSeverityMeta a =
      { a with metadata := dictSet (dictSet a.metadata
          "requires_attention" (PyVal.bool true)) "max_response_time" (PyVal.str "1 hour") } := by
  unfold enrichSeverityMeta
  rw [if_neg (by simp [h]), if_pos h]

theorem enrich_alert_warning (a : Alert) (h : a.severity = "warning") :
    ∃ ts, enrich_alert a =
      { a with tags := ts, metadata := dictSet (dictSet a.metadata
          "requires_attention" (PyVal.bool true)) "max_response_time" (PyVal.str "1 hour") } := by
  obtain ⟨t1, h1⟩ := enrichHourTags_eq a
  obtain ⟨t2, h2⟩ := enrichSourceTags_eq (enrichHourTags a)
  have hx : (enrichSourceTags (enrichHourTags a)).severity = "warning" := by
    rw [h2, h1]; exact h
  refine ⟨t2, ?_⟩
  rw [enrich_alert, enrichSeverityMeta_warning _ hx, h2, h1]

/-! ### Projection helpers -/

theorem mkAlert_title (now : Nat) (d : AlertData) :
    (mkAlert now d).title = d.title.getD "Unknown Alert" := rfl

theorem mkAlert_source (now : Nat) (d : AlertData) :
    (mkAlert now d).source = d.source.getD "unknown" := rfl

theorem mkAlert_severity (now : Nat) (d : AlertData) :
    (mkAlert now d).severity = strLower (d.severity.getD "info") := rfl

theorem mkAlert_description (now : Nat) (d : AlertData) :
    (mkAlert now d).description = d.description.getD "" := rfl

theorem mkAlert_metadata (now : Nat) (d : AlertData) :
    (mkAlert now d).metadata = d.metadata.getD [] := rfl

theorem mkAlert_timestamp (now : Nat) (d : AlertData) :
    (mkAlert now d).timestamp = now := rfl

theorem attrGet_severity (a : Alert) : attrGet a "severity" = some a.severity := rfl

theorem attrGet_source (a : Alert) : attrGet a "source" = some a.source := rfl

/-- An alert produced (not deduplicated) by `process_alert` carries the
content-derived id of its payload. -/
theorem processed_alert_id (now : Nat) (d : AlertData) (st : ProcessorState)
    (a : Alert) (h : (process_alert now d st).1 = some a) :
    a.id = generate_alert_id d := by
  rw [process_alert_eq] at h
  by_cases hd : deduplicate_alert now (mkAlert now d) st.active_alerts
  · rw [if_pos hd] at h; simp at h
  · rw [if_neg hd] at h
    simp only [] at h
    have : storedAlert now d = a := by simpa using h
    rw [← this]
    exact (storedAlert_fields now d).1

/-- Full characterization of the `notify_alert` aggregate (helper shared by
the dispatch-related theorems). -/
theorem notify_alert_spec (channels : List NotificationChannel)
    (sE sS sW : SendFn) (rules : List RoutingRule) (a : Alert) :
    (notify_alert channels sE sS sW rules a).alert_id = a.id ∧
    (notify_alert channels sE sS sW rules a).channels_attempted =
      (route_alert rules a).length ∧
    (notify_alert channels sE sS sW rules a).results =
      (route_alert rules a).map (notifyOutcome channels sE sS sW a) ∧
    (notify_alert channels sE sS sW rules a).successful_notifications =
      ((route_alert rules a).map (notifyOutcome channels sE sS sW a)).countP
        (fun o => o.status == "success") ∧
    (notify_alert channels sE sS sW rules a).failed_notifications =
      ((route_alert rules a).map (notifyOutcome channels sE sS sW a)).countP
        (fun o => o.status == "failed") := by
  obtain ⟨h1, h2, h3, h4, h5⟩ :=
    notify_fold channels sE sS sW a (route_alert rules a)
      { alert_id := a.id, channels_attempted := (route_alert rules a).length,
        successful_notifications := 0, failed_notifications := 0, results := [] }
  unfold notify_alert
  exact ⟨h5, h4, by simpa using h1, by simpa using h2, by simpa using h3⟩

/-! ### Concrete fixtures used by witnesses and counterexamples -/

/-- The end-to-end scenario payload from the spec (database warning). -/
def dbPayload : AlertData :=
  { title := some "DB down", description := some "database connection failed",
    severity := some "warning", source := some "database" }

/-- An info-severity alert whose description contains an escalation keyword. -/
def infoDownAlert : Alert :=
  { id := "x", title := "t", description := "server down", severity := "info",
    source := "monitoring", timestamp := 0, tags := [], metadata := [] }

/-- A critical kubernetes-sourced alert. -/
def critK8sAlert : Alert :=
  { id := "y", title := "pod crash", description := "pod in CrashLoopBackOff",
    severity := "critical", source := "kubernetes", timestamp := 0, tags := [],
    metadata := [] }

/-! ### Claim theorems -/

/-- C4: the escalation block upgrades severity to "critical" and appends the
tag "auto_escalated" exactly when the description (lower-cased) contains one
of the keywords "down"/"failed"/"error"/"timeout" and the severity is
"warning"; in every other case (in particular an "info" alert with a matching
keyword) severity and tags are left unchanged by `_apply_severity_rules`. -/
theorem escalation_iff_keyword_and_warning (a : Alert) :
    ((hasEscalationKeyword a.description = true ∧ a.severity = "warning") →
      (apply_severity_rules a).severity = "critical" ∧
      (apply_severity_rules a).tags = a.tags ++ ["auto_escalated"]) ∧
    (¬(hasEscalationKeyword a.description = true ∧ a.severity = "warning") →
      (apply_severity_rules a).severity = a.severity ∧
      (apply_severity_rules a).tags = a.tags) := by
  obtain ⟨o, hassign⟩ := assignBySource_eq (escalateKeyword a)
  constructor
  · rintro ⟨hk, hw⟩
    unfold apply_severity_rules
    rw [hassign, escalateKeyword_pos a hk hw]
    exact ⟨rfl, rfl⟩
  · intro h
    unfold apply_severity_rules
    rw [hassign, escalateKeyword_neg a h]
    exact ⟨rfl, rfl⟩

/-- Witness for C4: an "info" alert containing the keyword "down" keeps
severity "info" and gains no tag. -/
theorem escalation_iff_keyword_and_warning_witness :
    (apply_severity_rules infoDownAlert).severity = "info" ∧
    (apply_severity_rules infoDownAlert).tags = [] :=
  (escalation_iff_keyword_and_warning infoDownAlert).2 (by decide)

/-- C5: `route_alert` never returns duplicate channel names (first-seen order
dedup), and under the default rule set a critical kubernetes-sourced alert is
routed exactly to ["email_ops", "slack_critical", "pagerduty"]. -/
theorem route_alert_nodup_and_default :
    (∀ (rules : List RoutingRule) (a : Alert), (route_alert rules a).Nodup) ∧
    (∀ a : Alert, a.severity = "critical" → a.source = "kubernetes" →
      route_alert defaultRoutingRules a =
        ["email_ops", "slack_critical", "pagerduty"]) := by
  refine ⟨route_alert_nodup, ?_⟩
  intro a h1 h2
  simp [route_alert, defaultRoutingRules, ruleMatches, attrGet_severity,
    attrGet_source, h1, h2, dedupKeys]

/-- Witness for C5: the default routing of a concrete critical kubernetes
alert. -/
theorem route_alert_nodup_and_default_witness :
    route_alert defaultRoutingRules critK8sAlert =
      ["email_ops", "slack_critical", "pagerduty"] :=
  route_alert_nodup_and_default.2 critK8sAlert rfl rfl

/-- C7: `_apply_severity_rules` assigns ownership by exact source match —
"kubernetes" → "k8s_team", "aws" → "cloud_team", "database" → "dba_team",
any other source leaves `assigned_to` untouched — and the spec's end-to-end
database payload is stored with severity "critical", the "auto_escalated"
tag, and `assigned_to = "dba_team"`. -/
theorem assignment_by_source_spec :
    (∀ a : Alert, a.source = "kubernetes" →
      (apply_severity_rules a).assigned_to = some "k8s_team") ∧
    (∀ a : Alert, a.source = "aws" →
      (apply_severity_rules a).assigned_to = some "cloud_team") ∧
    (∀ a : Alert, a.source = "database" →
      (apply_severity_rules a).assigned_to = some "dba_team") ∧
    (∀ a : Alert, a.source ≠ "kubernetes" → a.source ≠ "aws" →
      a.source ≠ "database" →
      (apply_severity_rules a).assigned_to = a.assigned_to) ∧
    ((process_alert 0 dbPayload {}).1.map
        (fun a => (a.severity, a.assigned_to, a.tags.contains "auto_escalated")) =
      some ("critical", some "dba_team", true)) := by
  refine ⟨?_, ?_, ?_, ?_, by decide⟩
  · intro a h
    obtain ⟨sv, ts, he⟩ := escalateKeyword_eq a
    unfold apply_severity_rules
    rw [he, assignBySource_k8s _ (by rw [← h])]
  · intro a h
    obtain ⟨sv, ts, he⟩ := escalateKeyword_eq a
    unfold apply_severity_rules
    rw [he, assignBySource_aws _ (by rw [← h])]
  · intro a h
    obtain ⟨sv, ts, he⟩ := escalateKeyword_eq a
    unfold apply_severity_rules
    rw [he, assignBySource_db _ (by rw [← h])]
  · intro a h1 h2 h3
    obtain ⟨sv, ts, he⟩ := escalateKeyword_eq a
    unfold apply_severity_rules
    rw [he, assignBySource_other { a with severity := sv, tags := ts } h1 h2 h3]

/-- Witness for C7: a concrete kubernetes-sourced alert is assigned to the
k8s team. -/
theorem assignment_by_source_spec_witness :
    (apply_severity_rules critK8sAlert).assigned_to = some "k8s_team" :=
  assignment_by_source_spec.1 critK8sAlert rfl

/-- C1: if a first payload has been processed and stored, then a second
payload with the same (defaulted) title and source, submitted while fewer
than 5 minutes (300 s) have elapsed since the stored alert's timestamp, is
deduplicated: `process_alert` returns `None` and the state — the active
map, hence its count, and the history list — is exactly unchanged. -/
theorem duplicate_within_window_dropped (t1 t2 : Nat) (p1 p2 : AlertData)
    (st st1 : ProcessorState) (a1 : Alert)
    (htitle : p1.title.getD "Unknown Alert" = p2.title.getD "Unknown Alert")
    (hsource : p1.source.getD "unknown" = p2.source.getD "unknown")
    (h1 : process_alert t1 p1 st = (some a1, st1))
    (_hle : t1 ≤ t2) (hwin : t2 - t1 < 300) :
    process_alert t2 p2 st1 = (none, st1) := by
  rw [process_alert_eq] at h1
  by_cases hd : deduplicate_alert t1 (mkAlert t1 p1) st.active_alerts
  · rw [if_pos hd] at h1
    simp at h1
  · rw [if_neg hd] at h1
    have hst1 : st1 =
        { active_alerts := dictSet st.active_alerts (storedAlert t1 p1).id
            (storedAlert t1 p1),
          alert_history := st.alert_history ++ [storedAlert t1 p1] } := by
      have := congrArg Prod.snd h1
      simpa using this.symm
    have hdup : deduplicate_alert t2 (mkAlert t2 p2) st1.active_alerts = true := by
      unfold deduplicate_alert
      rw [List.any_eq_true]
      refine ⟨((storedAlert t1 p1).id, storedAlert t1 p1), ?_, ?_⟩
      · rw [hst1]
        exact mem_dictSet_self _ _ _
      · obtain ⟨hid, ht, hdesc, hs, hts⟩ := storedAlert_fields t1 p1
        rw [Bool.and_eq_true, Bool.and_eq_true]
        refine ⟨⟨?_, ?_⟩, ?_⟩
        · rw [ht, mkAlert_title, htitle]
          exact beq_self_eq_true _
        · rw [hs, mkAlert_source, hsource]
          exact beq_self_eq_true _
        · rw [hts]
          simp only [deduplicationWindow, decide_eq_true_eq]
          omega
    rw [process_alert_eq, if_pos hdup]

/-- The spec's repeated-payload scenario (title "High CPU"). -/
def cpuPayload : AlertData :=
  { title := some "High CPU", description := some "cpu 92%",
    source := some "monitoring" }

/-- Witness for C1: the same payload resubmitted 10 seconds later is dropped
and the state is unchanged. -/
theorem duplicate_within_window_dropped_witness :
    process_alert 10 cpuPayload (process_alert 0 cpuPayload {}).2 =
      (none, (process_alert 0 cpuPayload {}).2) := by
  obtain ⟨a1, ha⟩ := Option.isSome_iff_exists.mp
    (show ((process_alert 0 cpuPayload {}).1).isSome by decide)
  have h1 : process_alert 0 cpuPayload {} =
      (some a1, (process_alert 0 cpuPayload {}).2) := by
    rw [← ha]
  exact duplicate_within_window_dropped 0 10 cpuPayload cpuPayload {} _ a1
    rfl rfl h1 (by omega) (by omega)

/-- C2: `process_alert` is total — it equals the try/except pipeline with
every step succeeding, so it returns `some` alert or `none`, never raising —
and whenever any internal step (construction, deduplication, enrichment or
escalation) raises, the handler returns `None` with the active map and the
history list exactly as before the call: no partial state is committed. -/
theorem process_alert_total_and_atomic :
    (∀ (now : Nat) (d : AlertData) (st : ProcessorState),
      process_alert now d st =
        process_alert_try (.ok (mkAlert now d))
          (fun a => .ok (deduplicate_alert now a st.active_alerts))
          (fun a => .ok (enrich_alert a))
          (fun a => .ok (apply_severity_rules a)) st) ∧
    (∀ (mk : Except String Alert) (ded : Alert → Except String Bool)
        (enr esc : Alert → Except String Alert) (st : ProcessorState),
      ((∃ e, mk = .error e) ∨
        ∃ a, mk = .ok a ∧ ((∃ e, ded a = .error e) ∨
          (ded a = .ok false ∧ ((∃ e, enr a = .error e) ∨
            ∃ b, enr a = .ok b ∧ ∃ e, esc b = .error e)))) →
      process_alert_try mk ded enr esc st = (none, st)) := by
  constructor
  · intro now d st
    unfold process_alert process_alert_try
    by_cases h : deduplicate_alert now (mkAlert now d) st.active_alerts
    · simp [h]
    · simp [h]
  · rintro mk ded enr esc st
      (⟨e, rfl⟩ | ⟨a, rfl, (⟨e, he⟩ | ⟨hd, (⟨e, he⟩ | ⟨b, hb, e, he⟩)⟩)⟩)
    · rfl
    · unfold process_alert_try
      simp [he]
    · unfold process_alert_try
      simp [hd, he]
    · unfold process_alert_try
      simp [hd, hb, he]

/-- Witness for C2: a raising construction step yields `None` and the empty
state unchanged. -/
theorem process_alert_total_and_atomic_witness :
    process_alert_try (.error "boom")
      (fun _ => .ok false) (fun a => .ok a) (fun a => .ok a)
      ({} : ProcessorState) = (none, ({} : ProcessorState)) :=
  process_alert_total_and_atomic.2 _ _ _ _ _ (Or.inl ⟨"boom", rfl⟩)

/-- The empty payload: every field takes its ingestion default. -/
def emptyPayload : AlertData := {}

/-- A payload that spells out the default title explicitly. -/
def explicitTitlePayload : AlertData := { title := some "Unknown Alert" }

/-- Counterexample to C3 as stated: two payloads whose *stored* Alerts have
identical title ("Unknown Alert"), source ("unknown") and description ("")
nevertheless receive different ids, because `generate_alert_id` hashes the
raw payload fields with empty-string defaults ("" vs "Unknown Alert") while
the stored fields use the richer `process_alert` defaults. -/
theorem alert_id_not_function_of_stored_fields :
    (process_alert 0 emptyPayload {}).1.map
        (fun a => (a.title, a.source, a.description)) =
      (process_alert 0 explicitTitlePayload {}).1.map
        (fun a => (a.title, a.source, a.description)) ∧
    ((process_alert 0 emptyPayload {}).1.map Alert.id).isSome = true ∧
    (process_alert 0 emptyPayload {}).1.map Alert.id ≠
      (process_alert 0 explicitTitlePayload {}).1.map Alert.id := by
  refine ⟨by decide, by decide, by decide⟩

/-- C3 (amended): the id is a pure function of the payload's title, source
and description fields as read with the empty-string defaults of
`generate_alert_id`; two processed-and-stored alerts from payloads agreeing
on those three raw fields get the same id regardless of submission times or
processor states. -/
theorem alert_id_pure_in_payload_fields (t1 t2 : Nat) (p1 p2 : AlertData)
    (st1 st2 : ProcessorState) (a1 a2 : Alert)
    (ht : p1.title.getD "" = p2.title.getD "")
    (hs : p1.source.getD "" = p2.source.getD "")
    (hd : p1.description.getD "" = p2.description.getD "")
    (h1 : (process_alert t1 p1 st1).1 = some a1)
    (h2 : (process_alert t2 p2 st2).1 = some a2) :
    a1.id = a2.id := by
  rw [processed_alert_id t1 p1 st1 a1 h1, processed_alert_id t2 p2 st2 a2 h2]
  unfold generate_alert_id
  rw [ht, hs, hd]

/-- Witness for C3 (amended): the same content submitted at times 5 and 9999
with different severities yields the same id. -/
theorem alert_id_pure_in_payload_fields_witness :
    (process_alert 5 cpuPayload {}).1.map Alert.id =
      (process_alert 9999 { cpuPayload with severity := some "critical" } {}).1.map
        Alert.id := by
  obtain ⟨a1, ha1⟩ := Option.isSome_iff_exists.mp
    (show ((process_alert 5 cpuPayload {}).1).isSome by decide)
  obtain ⟨a2, ha2⟩ := Option.isSome_iff_exists.mp
    (show ((process_alert 9999
      { cpuPayload with severity := some "critical" } {}).1).isSome by decide)
  rw [ha1, ha2]
  exact congrArg some
    (alert_id_pure_in_payload_fields 5 9999 cpuPayload
      { cpuPayload with severity := some "critical" } {} {} a1 a2
      rfl rfl rfl ha1 ha2)

/-- The three documented severity levels. -/
def severityLevels : List String := ["critical", "warning", "info"]

/-- Every alert stored in the active map or the history has a documented
severity level. -/
def stateSeverityOk (st : ProcessorState) : Prop :=
  (∀ e ∈ st.active_alerts, e.2.severity ∈ severityLevels) ∧
  (∀ a ∈ st.alert_history, a.severity ∈ severityLevels)

/-- A payload carrying an arbitrary severity string. -/
def bananaPayload : AlertData := { severity := some "banana" }

/-- Counterexample to C8 as stated: `process_alert` performs no severity
validation, so a payload with severity "banana" is stored (in both the
active map and the history) with severity "banana", outside
{critical, warning, info}. -/
theorem severity_invariant_fails_on_unvalidated_input :
    (process_alert 0 bananaPayload {}).2.alert_history.map Alert.severity =
      ["banana"] ∧
    (process_alert 0 bananaPayload {}).2.active_alerts.map
      (fun e => e.2.severity) = ["banana"] ∧
    "banana" ∉ severityLevels := by
  refine ⟨by decide, by decide, by decide⟩

theorem storedAlert_severity (now : Nat) (d : AlertData) :
    (storedAlert now d).severity = (mkAlert now d).severity ∨
      (storedAlert now d).severity = "critical" := by
  obtain ⟨ts, md, he⟩ := enrich_alert_eq (mkAlert now d)
  have hsev : (enrich_alert (mkAlert now d)).severity = (mkAlert now d).severity := by
    rw [he]
  rcases apply_severity_rules_severity (enrich_alert (mkAlert now d)) with h | ⟨h, _⟩
  · left
    rw [storedAlert, h, hsev]
  · right
    rw [storedAlert, h]

theorem process_alert_preserves_severityOk (now : Nat) (d : AlertData)
    (st : ProcessorState)
    (hd : strLower (d.severity.getD "info") ∈ severityLevels)
    (hst : stateSeverityOk st) :
    stateSeverityOk (process_alert now d st).2 := by
  rw [process_alert_eq]
  by_cases h : deduplicate_alert now (mkAlert now d) st.active_alerts
  · rw [if_pos h]; exact hst
  · rw [if_neg h]
    have hs : (storedAlert now d).severity ∈ severityLevels := by
      rcases storedAlert_severity now d with h' | h'
      · rw [h', mkAlert_severity]; exact hd
      · rw [h']; simp [severityLevels]
    constructor
    · intro e he
      rcases mem_of_mem_dictSet he with h' | h'
      · exact hst.1 e h'
      · rw [h']; exact hs
    · intro b hb
      rcases List.mem_append.mp hb with h' | h'
      · exact hst.2 b h'
      · have : b = storedAlert now d := by simpa using h'
        rw [this]; exact hs

/-- C8 (amended): the stored-severity invariant holds provided every
submitted payload's severity field, lower-cased with the "info" default,
already lies in {critical, warning, info}; escalation preserves membership
(warning is only ever upgraded to critical), so every alert in the active
map and in the history stays inside the documented set across any sequence
of `process_alert` calls. -/
theorem severity_invariant_for_valid_inputs (l : List (Nat × AlertData))
    (st : ProcessorState) (hst : stateSeverityOk st)
    (hl : ∀ p ∈ l, strLower (p.2.severity.getD "info") ∈ severityLevels) :
    stateSeverityOk (runAlerts l st) := by
  induction l generalizing st with
  | nil => exact hst
  | cons x xs ih =>
    simp only [runAlerts, List.foldl_cons]
    exact ih (process_alert x.1 x.2 st).2
      (process_alert_preserves_severityOk x.1 x.2 st
        (hl x (List.mem_cons_self x xs)) hst)
      (fun p hp => hl p (List.mem_cons_of_mem x hp))

/-- Witness for C8 (amended): a mixed-case warning payload and the database
payload keep the store inside the documented severity set. -/
theorem severity_invariant_for_valid_inputs_witness :
    stateSeverityOk
      (runAlerts [(0, { severity := some "WARNING" }), (400, dbPayload)] {}) :=
  severity_invariant_for_valid_inputs _ _
    (by constructor <;> intro x hx <;> simp at hx)
    (by decide)

/-- On a warning alert with an escalation keyword, `_apply_severity_rules`
upgrades the severity and leaves the metadata untouched. -/
theorem apply_severity_rules_pos (a : Alert)
    (hk : hasEscalationKeyword a.description = true) (hw : a.severity = "warning") :
    (apply_severity_rules a).severity = "critical" ∧
    (apply_severity_rules a).metadata = a.metadata := by
  obtain ⟨o, ho⟩ := assignBySource_eq (escalateKeyword a)
  unfold apply_severity_rules
  rw [ho, escalateKeyword_pos a hk hw]
  exact ⟨rfl, rfl⟩

/-- C9: enrichment runs before escalation and its severity-derived metadata
is not recomputed: a payload whose severity folds to "warning" and whose
description contains an escalation keyword (and whose metadata does not
already carry the critical-level key) is stored with final severity
"critical" but with the warning-level metadata `requires_attention = True`
and `max_response_time = "1 hour"`, and without
`requires_immediate_attention`. -/
theorem enrichment_metadata_precedes_escalation (now : Nat) (p : AlertData)
    (hsev : strLower (p.severity.getD "info") = "warning")
    (hkw : hasEscalationKeyword (p.description.getD "") = true)
    (hmeta : dictGet (p.metadata.getD []) "requires_immediate_attention" = none) :
    (process_alert now p {}).1.map (fun a =>
      (a.severity, dictGet a.metadata "requires_attention",
       dictGet a.metadata "max_response_time",
       dictGet a.metadata "requires_immediate_attention")) =
    some ("critical", some (PyVal.bool true), some (PyVal.str "1 hour"), none) := by
  have hnd : deduplicate_alert now (mkAlert now p)
      (({} : ProcessorState)).active_alerts = false := rfl
  rw [process_alert_eq, if_neg (by rw [hnd]; exact Bool.false_ne_true)]
  refine congrArg some ?_
  have hA : (mkAlert now p).severity = "warning" := by rw [mkAlert_severity, hsev]
  obtain ⟨ts, hE⟩ := enrich_alert_warning (mkAlert now p) hA
  have hp := apply_severity_rules_pos (enrich_alert (mkAlert now p))
    (by rw [hE]; exact hkw) (by rw [hE]; exact hA)
  have hsev' : (storedAlert now p).severity = "critical" := by
    rw [storedAlert]; exact hp.1
  have hmd : (storedAlert now p).metadata =
      dictSet (dictSet (p.metadata.getD []) "requires_attention"
        (PyVal.bool true)) "max_response_time" (PyVal.str "1 hour") := by
    rw [storedAlert, hp.2, hE]
    rfl
  have e1 : ("requires_attention" : String) ≠ "max_response_time" := by decide
  have e2 : ("requires_immediate_attention" : String) ≠ "max_response_time" := by decide
  have e3 : ("requires_immediate_attention" : String) ≠ "requires_attention" := by decide
  dsimp only
  rw [hsev', hmd, dictGet_dictSet_other _ _ _ _ e1, dictGet_dictSet_same,
    dictGet_dictSet_same, dictGet_dictSet_other _ _ _ _ e2,
    dictGet_dictSet_other _ _ _ _ e3, hmeta]

/-- Witness for C9: a concrete warning payload with the keyword "down". -/
theorem enrichment_metadata_precedes_escalation_witness :
    (process_alert 0 { severity := some "warning", description := some "node down" }
        ({} : ProcessorState)).1.map (fun a =>
      (a.severity, dictGet a.metadata "requires_attention",
       dictGet a.metadata "max_response_time",
       dictGet a.metadata "requires_immediate_attention")) =
    some ("critical", some (PyVal.bool true), some (PyVal.str "1 hour"), none) :=
  enrichment_metadata_precedes_escalation 0
    { severity := some "warning", description := some "node down" }
    (by decide) (by decide) (by decide)

/-- C6: in `notify_alert`, `channels_attempted` is the number of routed
names; each routed name yields exactly one per-channel outcome, in routing
order; an absent or disabled channel yields outcome "skipped" (and skipped
entries are counted by neither tally, which count only "success"/"failed"
outcomes of the independently dispatched remaining channels); consequently
successes plus failures plus skips equal the attempted count. -/
theorem dispatch_aggregation_spec (channels : List NotificationChannel)
    (sE sS sW : SendFn) (rules : List RoutingRule) (a : Alert) :
    (notify_alert channels sE sS sW rules a).channels_attempted =
      (route_alert rules a).length ∧
    (notify_alert channels sE sS sW rules a).results =
      (route_alert rules a).map (notifyOutcome channels sE sS sW a) ∧
    (notify_alert channels sE sS sW rules a).successful_notifications =
      (notify_alert channels sE sS sW rules a).results.countP
        (fun o => o.status == "success") ∧
    (notify_alert channels sE sS sW rules a).failed_notifications =
      (notify_alert channels sE sS sW rules a).results.countP
        (fun o => o.status == "failed") ∧
    (∀ name : String,
      (∀ ch, channelFind channels name = some ch → ch.enabled = false) →
      notifyOutcome channels sE sS sW a name =
        { channel := name, status := "skipped",
          reason := some "Channel not found or disabled", ctype := none }) ∧
    (notify_alert channels sE sS sW rules a).successful_notifications +
      (notify_alert channels sE sS sW rules a).failed_notifications +
      (notify_alert channels sE sS sW rules a).results.countP
        (fun o => o.status == "skipped") =
      (notify_alert channels sE sS sW rules a).channels_attempted := by
  obtain ⟨hid, hatt, hres, hsucc, hfail⟩ := notify_alert_spec channels sE sS sW rules a
  have hst : ∀ o ∈ (route_alert rules a).map (notifyOutcome channels sE sS sW a),
      o.status = "skipped" ∨ o.status = "success" ∨ o.status = "failed" := by
    intro o ho
    obtain ⟨name, hn, rfl⟩ := List.mem_map.mp ho
    exact notifyOutcome_status channels sE sS sW a name
  refine ⟨hatt, hres, by rw [hsucc, hres], by rw [hfail, hres], ?_, ?_⟩
  · intro name h
    unfold notifyOutcome
    cases hc : channelFind channels name with
    | none => rfl
    | some ch =>
      have he : ch.enabled = false := h ch hc
      simp [he]
  · rw [hatt, hsucc, hfail, hres, countP_status_total _ hst, List.length_map]

/-- The spec's dispatch example: three configured channels, Slack disabled. -/
def slackDisabledChannels : List NotificationChannel :=
  [{ name := "email_ops", type := "email", config := [] },
   { name := "slack_critical", type := "slack", config := [], enabled := false },
   { name := "pagerduty", type := "webhook", config := [] }]

/-- Witness for C6: with three routed channels of which one is disabled,
three channels are attempted and the disabled one is skipped. -/
theorem dispatch_aggregation_spec_witness :
    (notify_alert slackDisabledChannels (fun _ _ => true) (fun _ _ => true)
      (fun _ _ => true) defaultRoutingRules critK8sAlert).channels_attempted = 3 ∧
    notifyOutcome slackDisabledChannels (fun _ _ => true) (fun _ _ => true)
      (fun _ _ => true) critK8sAlert "slack_critical" =
      { channel := "slack_critical", status := "skipped",
        reason := some "Channel not found or disabled", ctype := none } := by
  constructor
  · exact (dispatch_aggregation_spec slackDisabledChannels _ _ _
      defaultRoutingRules critK8sAlert).1.trans (by decide)
  · refine (dispatch_aggregation_spec slackDisabledChannels (fun _ _ => true)
      (fun _ _ => true) (fun _ _ => true) defaultRoutingRules
      critK8sAlert).2.2.2.2.1 "slack_critical" ?_
    intro ch h
    have hfind : channelFind slackDisabledChannels "slack_critical" =
        some { name := "slack_critical", type := "slack", config := [],
               enabled := false } := by decide
    rw [hfind] at h
    injection h with h2
    rw [← h2]

/-- C10: a routed channel that is present and enabled but whose type is none
of "email"/"slack"/"webhook" falls through the per-type dispatch with
`success = False`, so it is recorded as "failed" (not "skipped") and counted
in `failed_notifications`. -/
theorem unknown_channel_type_fails (channels : List NotificationChannel)
    (sE sS sW : SendFn) (rules : List RoutingRule) (a : Alert)
    (name : String) (ch : NotificationChannel)
    (hfind : channelFind channels name = some ch) (hen : ch.enabled = true)
    (h1 : ch.type ≠ "email") (h2 : ch.type ≠ "slack") (h3 : ch.type ≠ "webhook")
    (hroute : name ∈ route_alert rules a) :
    notifyOutcome channels sE sS sW a name =
      { channel := name, status := "failed", reason := none,
        ctype := some ch.type } ∧
    { channel := name, status := "failed", reason := none,
        ctype := some ch.type } ∈
      (notify_alert channels sE sS sW rules a).results ∧
    1 ≤ (notify_alert channels sE sS sW rules a).failed_notifications := by
  have hout : notifyOutcome channels sE sS sW a name =
      { channel := name, status := "failed", reason := none,
        ctype := some ch.type } := by
    unfold notifyOutcome
    rw [hfind]
    simp [hen, dispatchSend, h1, h2, h3]
  obtain ⟨hid, hatt, hres, hsucc, hfail⟩ := notify_alert_spec channels sE sS sW rules a
  refine ⟨hout, ?_, ?_⟩
  · rw [hres]
    exact List.mem_map.mpr ⟨name, hroute, hout⟩
  · rw [hfail]
    have hpos : 0 < ((route_alert rules a).map
        (notifyOutcome channels sE sS sW a)).countP
        (fun o => o.status == "failed") := by
      refine List.countP_pos_iff.mpr
        ⟨_, List.mem_map.mpr ⟨name, hroute, rfl⟩, ?_⟩
      rw [hout]
      rfl
    omega

/-- A channel of the unsupported type "sms". -/
def smsChannel : NotificationChannel :=
  { name := "sms_ops", type := "sms", config := [] }

/-- A rule with no conditions (fires on every alert) routing to the sms
channel. -/
def smsRule : RoutingRule :=
  { name := "all_alerts", conditions := [], channels := ["sms_ops"],
    escalation_time := 0 }

/-- Witness for C10: an enabled "sms"-typed channel is recorded as failed and
counted. -/
theorem unknown_channel_type_fails_witness :
    notifyOutcome [smsChannel] (fun _ _ => true) (fun _ _ => true)
      (fun _ _ => true) critK8sAlert "sms_ops" =
      { channel := "sms_ops", status := "failed", reason := none,
        ctype := some "sms" } ∧
    1 ≤ (notify_alert [smsChannel] (fun _ _ => true) (fun _ _ => true)
      (fun _ _ => true) [smsRule] critK8sAlert).failed_notifications := by
  have h := unknown_channel_type_fails [smsChannel] (fun _ _ => true)
    (fun _ _ => true) (fun _ _ => true) [smsRule] critK8sAlert "sms_ops"
    smsChannel rfl rfl (by decide) (by decide) (by decide) (by decide)
  exact ⟨h.1, h.2.2⟩
